import Mathlib

/-!
lolbot: the match-rank aggregation core of `riotapi.go`

A shallow embedding of the Riot API client of the bot and of its entry point
`RiotClient.GetLiveMatchBySummonerName`.

Modelling conventions

* Go strings are Lean `String`s; `<` on strings is the lexicographic order, which
  coincides with Go's byte-wise comparison on valid UTF-8.
* Go `int` and `uint8` values are `Int` and `Nat`.
* A Go `error` is represented by the text its `Error()` method returns.
* A `nil` slice is `none`, a non-nil slice is `some` of a list.
* A run-time panic (nil pointer dereference) is an explicit outcome.
* The HTTP transport (`gorequest`) is not part of the repository: the upstream
  service is a parameter giving, for each request, the response that the
  transport finally hands back (status code, status text, decoded body).
  Every upstream request made is appended to a trace.
* Logging is not modelled; the value of `traceFuncName()` only feeds log lines.
* The goroutines started by `GetLiveMatchBySummonerName` are run in the order
  given by a schedule, a list of participant indices.
-/

namespace Lolbot

/-! ## Data model -/

/-- The `Info` block of a champion. -/
structure ChampionInfo where
  Attack : Int
  Defense : Int
  Magic : Int
  Difficulty : Int
  deriving DecidableEq, Repr

/-- The `Image` block of a champion. -/
structure ChampionImage where
  Full : String
  Sprite : String
  Group : String
  X : Int
  Y : Int
  W : Int
  H : Int
  deriving DecidableEq, Repr

/-- Go type `Champion`; the floating point `Stats` block, which no function of the
client reads, is left out. -/
structure Champion where
  Version : String
  ID : String
  Key : String
  Name : String
  Title : String
  Blurb : String
  Info : ChampionInfo
  Image : ChampionImage
  Tags : List String
  Partype : String
  deriving DecidableEq, Repr

/-- Go type `Champions`. The map `Data` is the list of its entries (map key, champion)
in the order in which a `range` loop visits them; Go leaves that order unspecified, so
nothing below may depend on it. The field `Type` of the source is named `Typ`. -/
structure Champions where
  Typ : String
  Format : String
  Version : String
  Data : List (String × Champion)
  deriving DecidableEq, Repr

/-- Go type `RiotClient`. -/
structure RiotClient where
  BaseURL : String
  Token : String
  Champions : Champions
  deriving DecidableEq, Repr

/-- Go type `Summoner`. -/
structure Summoner where
  ID : String
  AccountID : String
  PUUID : String
  Name : String
  ProfileIconID : Int
  RevisionDate : Int
  SummonerLevel : Int
  deriving DecidableEq, Repr

/-- The `MiniSeries` block of a rank entry. -/
structure MiniSeries where
  Target : Int
  Wins : Int
  Losses : Int
  Progress : String
  deriving DecidableEq, Repr

/-- Go type `SummonerRank`: one rank entry of a summoner. -/
structure SummonerRank where
  LeagueID : String
  QueueType : String
  Tier : String
  Rank : String
  SummonerID : String
  SummonerName : String
  LeaguePoints : Int
  Wins : Int
  Losses : Int
  Veteran : Bool
  Inactive : Bool
  FreshBlood : Bool
  HotStreak : Bool
  MiniSeries : MiniSeries
  deriving DecidableEq, Repr

/-- Go type `Participant`; the untyped `GameCustomizationObjects` and the `Perks`
block, which the client never reads, are left out. -/
structure Participant where
  TeamID : Nat
  Spell1ID : Int
  Spell2ID : Int
  ChampionID : Int
  ProfileIconID : Int
  SummonerName : String
  Bot : Bool
  SummonerID : String
  deriving DecidableEq, Repr

/-- Go type `LiveMatch`; observers and banned champions, never read, are left out. -/
structure LiveMatch where
  GameID : Int
  MapID : Int
  GameMode : String
  GameType : String
  GameQueueConfigID : Int
  Participants : List Participant
  PlatformID : String
  GameStartTime : Int
  GameLength : Int
  deriving DecidableEq, Repr

/-- Go type `SanitizedRank`, the output unit. -/
structure SanitizedRank where
  SummonerName : String
  Team : String
  Champion : String
  Solo : String
  Flex : String
  deriving DecidableEq, Repr

/-- The zero value of `SanitizedRank`, as `make` fills a fresh slice with. -/
def SanitizedRank.zero : SanitizedRank := ⟨"", "", "", "", ""⟩

/-- A Go `error` created by `errors.New`, identified by its text. -/
structure GoError where
  msg : String
  deriving DecidableEq, Repr

/-! ## The upstream service and the trace of calls -/

/-- What the transport hands back for one request: `resp.StatusCode`, `resp.Status`
and the value that `EndStruct` decoded the body into. -/
structure Response (α : Type) where
  StatusCode : Int
  Status : String
  body : α

/-- The upstream service: one response per endpoint and query. -/
structure Upstream where
  summonerByName : String → Response Summoner
  activeGameBySummoner : String → Response LiveMatch
  entriesBySummoner : String → Response (List SummonerRank)

/-- One upstream request, named after the endpoint it goes to. -/
inductive Call where
  | summoner (summonerName : String)
  | liveMatch (summonerId : String)
  | rank (summonerId : String)
  deriving DecidableEq, Repr

/-- Is the call a live-match request? -/
def Call.isLiveMatch : Call → Bool
  | .liveMatch _ => true
  | _ => false

/-- Is the call a rank request? -/
def Call.isRank : Call → Bool
  | .rank _ => true
  | _ => false

/-! ## Operations -/

/-- Go `strconv.Itoa`: the decimal string of an integer. -/
def Itoa (i : Int) : String :=
  if i < 0 then "-" ++ Nat.repr i.natAbs else Nat.repr i.natAbs

/-- The `range` loop of `GetChampionByKey` over the map entries. -/
def GetChampionByKey.loop (key : String) : List (String × Champion) → Option Champion
  | [] => none
  | e :: rest => if key = e.2.Key then some e.2 else GetChampionByKey.loop key rest

/-- Go `Champions.GetChampionByKey`: the first visited champion whose `Key` is `key`,
`none` for the `nil` pointer. -/
def Champions.GetChampionByKey (champions : Champions) (key : String) : Option Champion :=
  GetChampionByKey.loop key champions.Data

/-- Go `RiotClient.GetSummonerByName`. -/
def GetSummonerByName (up : Upstream) (summonerName : String) (tr : List Call) :
    Except GoError Summoner × List Call :=
  let resp := up.summonerByName summonerName
  let tr := tr ++ [Call.summoner summonerName]
  if 200 ≠ resp.StatusCode then (.error ⟨resp.Status⟩, tr) else (.ok resp.body, tr)

/-- Go `RiotClient.GetSummonerRankById`. -/
def GetSummonerRankById (up : Upstream) (summonerId : String) (tr : List Call) :
    Except GoError (List SummonerRank) × List Call :=
  let resp := up.entriesBySummoner summonerId
  let tr := tr ++ [Call.rank summonerId]
  if 200 ≠ resp.StatusCode then (.error ⟨resp.Status⟩, tr) else (.ok resp.body, tr)

/-- Go `RiotClient.GetLiveMatchBySummonerId`. -/
def GetLiveMatchBySummonerId (up : Upstream) (summoner : Summoner) (tr : List Call) :
    Except GoError LiveMatch × List Call :=
  let resp := up.activeGameBySummoner summoner.ID
  let tr := tr ++ [Call.liveMatch summoner.ID]
  if 200 ≠ resp.StatusCode then (.error ⟨resp.Status⟩, tr) else (.ok resp.body, tr)

/-- Go `RiotClient.NewSanitizedRank`; `none` is the nil pointer dereference
`champ.Name` when the champion is not found. -/
def RiotClient.NewSanitizedRank (c : RiotClient) (summonerName : String) (team : Nat)
    (championId : Int) : Option SanitizedRank :=
  let t := if team = 100 then "BLUE" else "RED"
  match c.Champions.GetChampionByKey (Itoa championId) with
  | none => none
  | some champ => some ⟨summonerName, t, champ.Name, "N/A", "N/A"⟩

/-- One iteration of the loop over the rank entries in the goroutine. -/
def rankStep (sr : SanitizedRank) (e : SummonerRank) : SanitizedRank :=
  let sr := if e.QueueType = "RANKED_SOLO_5x5" then
    { sr with Solo := e.Tier ++ " " ++ e.Rank } else sr
  if e.QueueType = "RANKED_FLEX_SR" then { sr with Flex := e.Tier ++ " " ++ e.Rank } else sr

/-- The loop `for ri := range r` of the goroutine. -/
def rankLoop (sr : SanitizedRank) (r : List SummonerRank) : SanitizedRank :=
  r.foldl rankStep sr

/-- State of the fan-out: the slice `ps` (`none` once a goroutine has panicked, which
takes the process down) and the trace of upstream calls. -/
abbrev Fanout := Option (List SanitizedRank) × List Call

/-- The goroutine `func(i int, p Participant)` started for index `i`. -/
def goroutine (c : RiotClient) (up : Upstream) (participants : List Participant)
    (st : Fanout) (i : Nat) : Fanout :=
  match st.1, participants[i]? with
  | some ps, some p =>
    match GetSummonerRankById up p.SummonerID st.2 with
    | (.error _, tr) => (some ps, tr)
    | (.ok r, tr) =>
      match c.NewSanitizedRank p.SummonerName p.TeamID p.ChampionID with
      | none => (none, tr)
      | some sr => (some (ps.set i (rankLoop sr r)), tr)
  | _, _ => st

/-- The inner loop of Go's `insertionSort`: the new element `x` moves left past every
element it is `less` than, starting from the right end of the sorted prefix. -/
def insertLeft {α : Type} (less : α → α → Bool) (pre : List α) (x : α) : List α :=
  pre.rdropWhile (fun y => less x y) ++ x :: pre.rtakeWhile (fun y => less x y)

/-- Go `sort.SliceStable` as the insertion sort the standard library runs (on blocks of
20 elements, merged stably beyond that): elements that are not `less` than one another
keep their order. -/
def SliceStable {α : Type} (less : α → α → Bool) (xs : List α) : List α :=
  xs.foldl (insertLeft less) []

/-- The comparison closure `ps[i].Team < ps[j].Team`. -/
def teamLess (a b : SanitizedRank) : Bool := decide (a.Team < b.Team)

/-- What a call of `GetLiveMatchBySummonerName` ends in. -/
inductive Outcome where
  | returned (ps : Option (List SanitizedRank)) (err : Option GoError)
  | panicked
  deriving DecidableEq, Repr

/-- Go `RiotClient.GetLiveMatchBySummonerName`, with the schedule `order` of the
goroutines; `wg.Wait()` returns once every index has been run, so `order` is a
permutation of the participant indices. Returns the outcome and the trace of upstream
calls. -/
def RiotClient.GetLiveMatchBySummonerName (c : RiotClient) (up : Upstream)
    (summonerName : String) (order : List Nat) : Outcome × List Call :=
  match GetSummonerByName up summonerName [] with
  | (.error err, tr) => (.returned none (some err), tr)
  | (.ok s, tr) =>
    match GetLiveMatchBySummonerId up s tr with
    | (.error err, tr) => (.returned none (some err), tr)
    | (.ok liveMatch, tr) =>
      let ps := List.replicate liveMatch.Participants.length SanitizedRank.zero
      match order.foldl (goroutine c up liveMatch.Participants) (some ps, tr) with
      | (none, tr) => (.panicked, tr)
      | (some ps, tr) => (.returned (some (SliceStable teamLess ps)) none, tr)

/-! ## Specification functions -/

/-- The entries of `l` whose team label is `t`, in their order in `l`. -/
def ofTeam (t : String) (l : List SanitizedRank) : List SanitizedRank :=
  l.filter (fun sr => decide (sr.Team = t))

/-- What the goroutine of one participant does to its slot of `ps`. -/
inductive SlotWrite where
  | skipped
  | wrote (sr : SanitizedRank)
  | panic
  deriving DecidableEq, Repr

/-- The effect on its slot of the goroutine run for participant `p`: nothing when the
rank lookup fails, a panic when the champion is unknown, else the write `ps[i] = sr`. -/
def slotWrite (c : RiotClient) (up : Upstream) (p : Participant) : SlotWrite :=
  match (GetSummonerRankById up p.SummonerID []).1 with
  | .error _ => .skipped
  | .ok r =>
    match c.NewSanitizedRank p.SummonerName p.TeamID p.ChampionID with
    | none => .panic
    | some sr => .wrote (rankLoop sr r)

/-- The content of the slot of participant `p` once its goroutine is done: the entry
written, or the zero value the slice was made with. -/
def slotValue (c : RiotClient) (up : Upstream) (p : Participant) : SanitizedRank :=
  match slotWrite c up p with
  | .skipped => SanitizedRank.zero
  | .wrote sr => sr
  | .panic => SanitizedRank.zero

/-- The slice `ps` after the goroutine of index `i`, the trace left aside. -/
def slotStep (c : RiotClient) (up : Upstream) (participants : List Participant)
    (ps : List SanitizedRank) (i : Nat) : List SanitizedRank :=
  match participants[i]? with
  | some p =>
    match slotWrite c up p with
    | .skipped => ps
    | .wrote sr => ps.set i sr
    | .panic => ps
  | none => ps

/-- The text written for a queue: tier and division of the last entry of that queue in the
list, the text `dflt` already there when the list has none. -/
def queueText (queue dflt : String) (r : List SummonerRank) : String :=
  match (r.filter (fun e => decide (e.QueueType = queue))).getLast? with
  | some e => e.Tier ++ " " ++ e.Rank
  | none => dflt

/-- The live match the upstream answers with for the summoner of the given name. -/
def liveMatchOf (up : Upstream) (summonerName : String) : LiveMatch :=
  (up.activeGameBySummoner (up.summonerByName summonerName).body.ID).body

/-! ## Sample data -/

/-- A champion with the given key and name. -/
def sampleChampion (key name : String) : Champion :=
  ⟨"10.7.1", name, key, name, "", "", ⟨0, 0, 0, 0⟩, ⟨"", "", "", 0, 0, 0, 0⟩, [], ""⟩

/-- A catalog of three champions. -/
def sampleCatalog : Champions :=
  ⟨"champion", "standAloneComplex", "10.7.1",
    [("Aatrox", sampleChampion "266" "Aatrox"), ("Ahri", sampleChampion "103" "Ahri"),
     ("Annie", sampleChampion "1" "Annie")]⟩

/-- A client over the sample catalog. -/
def sampleClient : RiotClient := ⟨"https://EUN1.api.riotgames.com/lol", "token", sampleCatalog⟩

/-- A participant with the given team, champion, name and id. -/
def sampleParticipant (team : Nat) (champ : Int) (name id : String) : Participant :=
  ⟨team, 4, 7, champ, 0, name, false, id⟩

/-- A rank entry with the given queue, tier and division. -/
def sampleRank (queue tier rank : String) : SummonerRank :=
  ⟨"", queue, tier, rank, "", "", 0, 0, 0, false, false, false, false, ⟨0, 0, 0, ""⟩⟩

/-- A live match of four participants: red, blue, red, blue. -/
def sampleMatch : LiveMatch :=
  ⟨1, 11, "CLASSIC", "MATCHED_GAME", 420,
    [sampleParticipant 200 266 "r1" "id1", sampleParticipant 100 103 "b1" "id2",
     sampleParticipant 200 1 "r2" "id3", sampleParticipant 100 266 "b2" "id4"],
    "EUN1", 0, 0⟩

/-- The summoner record the sample upstream answers with. -/
def sampleSummoner : Summoner := ⟨"id1", "acc", "puuid", "r1", 0, 0, 30⟩

/-- An upstream where every lookup succeeds, except the rank lookups of the summoner
ids listed in `failing`, which answer 404. -/
def sampleUpstream (failing : List String) : Upstream where
  summonerByName := fun _ => ⟨200, "200 OK", sampleSummoner⟩
  activeGameBySummoner := fun _ => ⟨200, "200 OK", sampleMatch⟩
  entriesBySummoner := fun id =>
    if id ∈ failing then ⟨404, "404 Not Found", []⟩
    else ⟨200, "200 OK", [sampleRank "RANKED_FLEX_SR" "GOLD" "II",
      sampleRank "RANKED_SOLO_5x5" "SILVER" "I"]⟩

/-- A live match of two participants; the champion of the second (id 999) is not in the
sample catalog. -/
def skewedMatch : LiveMatch :=
  ⟨2, 11, "CLASSIC", "MATCHED_GAME", 420,
    [sampleParticipant 100 103 "b1" "id2", sampleParticipant 200 999 "r1" "id1"],
    "EUN1", 0, 0⟩

/-- An upstream serving `skewedMatch`; the rank lookup of "id2" answers 404, every other
lookup succeeds. -/
def skewedUpstream : Upstream where
  summonerByName := fun _ => ⟨200, "200 OK", sampleSummoner⟩
  activeGameBySummoner := fun _ => ⟨200, "200 OK", skewedMatch⟩
  entriesBySummoner := fun id =>
    if id = "id2" then ⟨404, "404 Not Found", []⟩ else ⟨200, "200 OK", []⟩

/-- An upstream whose summoner lookup answers with the given status. -/
def summonerStatusUpstream (code : Int) (status : String) : Upstream where
  summonerByName := fun _ => ⟨code, status, ⟨"", "", "", "", 0, 0, 0⟩⟩
  activeGameBySummoner := fun _ => ⟨200, "200 OK", sampleMatch⟩
  entriesBySummoner := fun _ => ⟨200, "200 OK", []⟩

/-- An upstream whose summoner lookup succeeds and whose live-match lookup answers with
the given status. -/
def liveMatchStatusUpstream (code : Int) (status : String) : Upstream where
  summonerByName := fun _ => ⟨200, "200 OK", sampleSummoner⟩
  activeGameBySummoner := fun _ => ⟨code, status, ⟨0, 0, "", "", 0, [], "", 0, 0⟩⟩
  entriesBySummoner := fun _ => ⟨200, "200 OK", []⟩

/-- An upstream serving the sample match whose rank lookups all answer 200 with the given
list of rank entries. -/
def rankListUpstream (ranks : List SummonerRank) : Upstream where
  summonerByName := fun _ => ⟨200, "200 OK", sampleSummoner⟩
  activeGameBySummoner := fun _ => ⟨200, "200 OK", sampleMatch⟩
  entriesBySummoner := fun _ => ⟨200, "200 OK", ranks⟩

/-! ## The stable sort by team -/

theorem insertLeft_split {α : Type} (less : α → α → Bool) (x : α) (A C : List α)
    (hA : ∀ y ∈ A, less x y = false) (hC : ∀ y ∈ C, less x y = true) :
    insertLeft less (A ++ C) x = A ++ x :: C := by
  unfold insertLeft
  induction C using List.reverseRecOn with
  | nil =>
    simp only [List.append_nil]
    have h1 : A.rdropWhile (fun y => less x y) = A := by
      rw [List.rdropWhile_eq_self_iff]
      intro hl
      simp [hA _ (List.getLast_mem hl)]
    have h2 : A.rtakeWhile (fun y => less x y) = [] := by
      rw [List.rtakeWhile_eq_nil_iff]
      intro hl
      simp [hA _ (List.getLast_mem hl)]
    rw [h1, h2]
  | append_singleton C y ih =>
    have hy : less x y = true := hC y (by simp)
    have ih2 := ih (fun z hz => hC z (by simp [hz]))
    rw [← List.append_assoc, List.rdropWhile_concat_pos _ _ _ hy,
      List.rtakeWhile_concat_pos _ _ _ hy]
    have := congrArg (fun l => l ++ [y]) ih2
    simpa using this

theorem SliceStable_concat {α : Type} (less : α → α → Bool) (l : List α) (x : α) :
    SliceStable less (l ++ [x]) = insertLeft less (SliceStable less l) x := by
  simp [SliceStable, List.foldl_append]

theorem teamLess_of (a b : SanitizedRank) (s t : String) (ha : a.Team = s) (hb : b.Team = t) :
    teamLess a b = decide (s.toList < t.toList) := by
  simp [teamLess, ha, hb, String.lt_iff_toList_lt]

theorem mem_ofTeam {t : String} {l : List SanitizedRank} {y : SanitizedRank}
    (h : y ∈ ofTeam t l) : y.Team = t := by
  simpa using (List.mem_filter.mp h).2

theorem ofTeam_concat_eq (t : String) (l : List SanitizedRank) (x : SanitizedRank)
    (h : x.Team = t) : ofTeam t (l ++ [x]) = ofTeam t l ++ [x] := by
  simp [ofTeam, List.filter_append, h]

theorem ofTeam_concat_ne (t : String) (l : List SanitizedRank) (x : SanitizedRank)
    (h : x.Team ≠ t) : ofTeam t (l ++ [x]) = ofTeam t l := by
  simp [ofTeam, List.filter_append, h]

/-- On entries labelled "", "BLUE" or "RED" the stable sort by team is the three-way
stable partition. -/
theorem SliceStable_teams (l : List SanitizedRank)
    (h : ∀ x ∈ l, x.Team = "" ∨ x.Team = "BLUE" ∨ x.Team = "RED") :
    SliceStable teamLess l = ofTeam "" l ++ ofTeam "BLUE" l ++ ofTeam "RED" l := by
  induction l using List.reverseRecOn with
  | nil => rfl
  | append_singleton l x ih =>
    have ih2 := ih (fun y hy => h y (by simp [hy]))
    rw [SliceStable_concat, ih2]
    rcases h x (by simp) with hx | hx | hx
    · rw [ofTeam_concat_eq _ _ _ hx, ofTeam_concat_ne "BLUE" _ _ (by rw [hx]; decide),
        ofTeam_concat_ne "RED" _ _ (by rw [hx]; decide), List.append_assoc,
        insertLeft_split]
      · simp
      · intro y hy
        rw [teamLess_of x y _ _ hx (mem_ofTeam hy)]; decide
      · intro y hy
        rcases List.mem_append.mp hy with hy | hy
        · rw [teamLess_of x y _ _ hx (mem_ofTeam hy)]; decide
        · rw [teamLess_of x y _ _ hx (mem_ofTeam hy)]; decide
    · rw [ofTeam_concat_eq _ _ _ hx, ofTeam_concat_ne "" _ _ (by rw [hx]; decide),
        ofTeam_concat_ne "RED" _ _ (by rw [hx]; decide), insertLeft_split]
      · simp
      · intro y hy
        rcases List.mem_append.mp hy with hy | hy
        · rw [teamLess_of x y _ _ hx (mem_ofTeam hy)]; decide
        · rw [teamLess_of x y _ _ hx (mem_ofTeam hy)]; decide
      · intro y hy
        rw [teamLess_of x y _ _ hx (mem_ofTeam hy)]; decide
    · rw [ofTeam_concat_eq _ _ _ hx, ofTeam_concat_ne "" _ _ (by rw [hx]; decide),
        ofTeam_concat_ne "BLUE" _ _ (by rw [hx]; decide)]
      have := insertLeft_split teamLess x (ofTeam "" l ++ ofTeam "BLUE" l ++ ofTeam "RED" l) []
        (by
          intro y hy
          rcases List.mem_append.mp hy with hy | hy
          · rcases List.mem_append.mp hy with hy | hy
            · rw [teamLess_of x y _ _ hx (mem_ofTeam hy)]; decide
            · rw [teamLess_of x y _ _ hx (mem_ofTeam hy)]; decide
          · rw [teamLess_of x y _ _ hx (mem_ofTeam hy)]; decide)
        (by simp)
      simpa using this

/-! ## The fan-out -/

theorem GetSummonerRankById_fst (up : Upstream) (id : String) (tr : List Call) :
    (GetSummonerRankById up id tr).1 = (GetSummonerRankById up id []).1 := by
  unfold GetSummonerRankById
  by_cases h : 200 = (up.entriesBySummoner id).StatusCode <;> simp [h]

theorem goroutine_none (c : RiotClient) (up : Upstream) (P : List Participant)
    (tr : List Call) (i : Nat) : goroutine c up P (none, tr) i = (none, tr) := by
  simp [goroutine]

theorem foldl_goroutine_none (c : RiotClient) (up : Upstream) (P : List Participant)
    (order : List Nat) (tr : List Call) :
    order.foldl (goroutine c up P) (none, tr) = (none, tr) := by
  induction order with
  | nil => rfl
  | cons i rest ih => simp [List.foldl_cons, goroutine_none, ih]

theorem goroutine_fst (c : RiotClient) (up : Upstream) (P : List Participant)
    (ps : List SanitizedRank) (tr : List Call) (i : Nat) :
    (goroutine c up P (some ps, tr) i).1 =
      match P[i]? with
      | some p =>
        match slotWrite c up p with
        | .skipped => some ps
        | .wrote sr => some (ps.set i sr)
        | .panic => none
      | none => some ps := by
  unfold goroutine
  cases hp : P[i]? with
  | none => simp
  | some p =>
    simp only [slotWrite]
    rw [← GetSummonerRankById_fst up p.SummonerID tr]
    rcases hq : GetSummonerRankById up p.SummonerID tr with ⟨res, tr2⟩
    cases res with
    | error e => simp
    | ok r =>
      cases hn : c.NewSanitizedRank p.SummonerName p.TeamID p.ChampionID <;> simp

theorem foldl_goroutine_ok (c : RiotClient) (up : Upstream) (P : List Participant)
    (order : List Nat) :
    ∀ (ps : List SanitizedRank) (tr : List Call),
      (∀ i ∈ order, ∀ p, P[i]? = some p → slotWrite c up p ≠ .panic) →
      (order.foldl (goroutine c up P) (some ps, tr)).1 =
        some (order.foldl (slotStep c up P) ps) := by
  induction order with
  | nil => intro ps tr _; rfl
  | cons i rest ih =>
    intro ps tr h
    rw [List.foldl_cons, List.foldl_cons]
    have hrest : ∀ j ∈ rest, ∀ p, P[j]? = some p → slotWrite c up p ≠ .panic :=
      fun j hj => h j (List.mem_cons_of_mem _ hj)
    have hfst := goroutine_fst c up P ps tr i
    rcases hg : goroutine c up P (some ps, tr) i with ⟨x, tr2⟩
    rw [hg] at hfst
    simp only at hfst
    cases hp : P[i]? with
    | none =>
      have hs : slotStep c up P ps i = ps := by simp [slotStep, hp]
      rw [hp] at hfst
      simp only at hfst
      rw [hfst, hs]
      exact ih ps tr2 hrest
    | some p =>
      rw [hp] at hfst
      simp only at hfst
      have hnp := h i (List.mem_cons_self _ _) p hp
      cases hw : slotWrite c up p with
      | skipped =>
        have hs : slotStep c up P ps i = ps := by simp [slotStep, hp, hw]
        rw [hw] at hfst; simp only at hfst; rw [hfst, hs]; exact ih ps tr2 hrest
      | wrote sr =>
        have hs : slotStep c up P ps i = ps.set i sr := by simp [slotStep, hp, hw]
        rw [hw] at hfst; simp only at hfst; rw [hfst, hs]; exact ih _ tr2 hrest
      | panic => exact absurd hw hnp

theorem foldl_goroutine_panic (c : RiotClient) (up : Upstream) (P : List Participant)
    (order : List Nat) :
    ∀ (ps : List SanitizedRank) (tr : List Call),
      (∃ i ∈ order, ∃ p, P[i]? = some p ∧ slotWrite c up p = .panic) →
      (order.foldl (goroutine c up P) (some ps, tr)).1 = none := by
  induction order with
  | nil => intro ps tr h; simp at h
  | cons i rest ih =>
    intro ps tr h
    rw [List.foldl_cons]
    have hfst := goroutine_fst c up P ps tr i
    rcases hg : goroutine c up P (some ps, tr) i with ⟨x, tr2⟩
    rw [hg] at hfst
    simp only at hfst
    cases x with
    | none => rw [foldl_goroutine_none]
    | some ps2 =>
      apply ih ps2 tr2
      obtain ⟨j, hj, p, hp, hw⟩ := h
      rcases List.mem_cons.mp hj with rfl | hj
      · rw [hp] at hfst
        simp only at hfst
        rw [hw] at hfst
        simp at hfst
      · exact ⟨j, hj, p, hp, hw⟩

theorem slotStep_length (c : RiotClient) (up : Upstream) (P : List Participant)
    (ps : List SanitizedRank) (i : Nat) : (slotStep c up P ps i).length = ps.length := by
  unfold slotStep
  cases P[i]? with
  | none => rfl
  | some p => dsimp only; generalize slotWrite c up p = w; cases w <;> simp

theorem slotStep_getElem?_ne (c : RiotClient) (up : Upstream) (P : List Participant)
    (ps : List SanitizedRank) (i j : Nat) (h : i ≠ j) :
    (slotStep c up P ps i)[j]? = ps[j]? := by
  unfold slotStep
  cases P[i]? with
  | none => rfl
  | some p => dsimp only; generalize slotWrite c up p = w; cases w <;> simp [List.getElem?_set, h]

theorem slotStep_getElem?_self (c : RiotClient) (up : Upstream) (P : List Participant)
    (ps qs : List SanitizedRank) (j : Nat) (hlen : qs.length = ps.length)
    (hj : qs[j]? = ps[j]?) :
    (slotStep c up P qs j)[j]? = (slotStep c up P ps j)[j]? := by
  unfold slotStep
  cases P[j]? with
  | none => exact hj
  | some p => dsimp only; generalize slotWrite c up p = w; cases w <;> simp [List.getElem?_set, hlen, hj]

theorem foldl_slotStep_length (c : RiotClient) (up : Upstream) (P : List Participant)
    (order : List Nat) :
    ∀ ps : List SanitizedRank, (order.foldl (slotStep c up P) ps).length = ps.length := by
  induction order with
  | nil => intro ps; rfl
  | cons i rest ih => intro ps; rw [List.foldl_cons, ih, slotStep_length]

theorem foldl_slotStep_getElem? (c : RiotClient) (up : Upstream) (P : List Participant)
    (order : List Nat) (j : Nat) :
    ∀ ps : List SanitizedRank,
      (order.foldl (slotStep c up P) ps)[j]? =
        if j ∈ order then (slotStep c up P ps j)[j]? else ps[j]? := by
  induction order with
  | nil => intro ps; simp
  | cons i rest ih =>
    intro ps
    rw [List.foldl_cons, ih]
    by_cases hij : i = j
    · subst hij
      have hself : (slotStep c up P (slotStep c up P ps i) i)[i]? =
          (slotStep c up P ps i)[i]? := by
        unfold slotStep
        cases P[i]? with
        | none => rfl
        | some p => dsimp only; generalize slotWrite c up p = w; cases w <;> simp [List.getElem?_set]
      simp [hself]
    · have h1 : (slotStep c up P (slotStep c up P ps i) j)[j]? =
          (slotStep c up P ps j)[j]? :=
        slotStep_getElem?_self c up P ps _ j (slotStep_length c up P ps i)
          (slotStep_getElem?_ne c up P ps i j hij)
      have h2 := slotStep_getElem?_ne c up P ps i j hij
      have hne : ¬ j = i := fun h => hij h.symm
      by_cases hr : j ∈ rest <;> simp [hr, h1, h2, hne]

/-- After every goroutine has run, slot `i` holds the value of participant `i`. -/
theorem foldl_slotStep_perm (c : RiotClient) (up : Upstream) (P : List Participant)
    (order : List Nat) (hperm : order.Perm (List.range P.length)) :
    order.foldl (slotStep c up P) (List.replicate P.length SanitizedRank.zero) =
      P.map (slotValue c up) := by
  apply List.ext_getElem?
  intro j
  rw [foldl_slotStep_getElem?]
  by_cases hj : j < P.length
  · have hmem : j ∈ order := hperm.mem_iff.mpr (List.mem_range.mpr hj)
    rw [if_pos hmem, List.getElem?_map]
    simp only [slotStep, slotValue, List.getElem?_eq_getElem hj, Option.map_some']
    generalize slotWrite c up P[j] = w
    cases w <;> simp [List.getElem?_set, hj, List.getElem?_replicate]
  · have hmem : j ∉ order := fun h => hj (List.mem_range.mp (hperm.mem_iff.mp h))
    have hj2 : P.length ≤ j := Nat.le_of_not_lt hj
    simp [hmem, List.getElem?_replicate, hj, List.getElem?_eq_none hj2]

/-! ## Length of the sorted slice -/

theorem insertLeft_length {α : Type} (less : α → α → Bool) (pre : List α) (x : α) :
    (insertLeft less pre x).length = pre.length + 1 := by
  have h : pre.rdropWhile (fun y => less x y) ++ pre.rtakeWhile (fun y => less x y) = pre := by
    simp only [List.rdropWhile, List.rtakeWhile, ← List.reverse_append,
      List.takeWhile_append_dropWhile, List.reverse_reverse]
  have h2 := congrArg List.length h
  simp only [List.length_append] at h2
  simp only [insertLeft, List.length_append, List.length_cons]
  omega

theorem SliceStable_length {α : Type} (less : α → α → Bool) (l : List α) :
    (SliceStable less l).length = l.length := by
  induction l using List.reverseRecOn with
  | nil => rfl
  | append_singleton l x ih => rw [SliceStable_concat, insertLeft_length, ih]; simp

/-! ## The champion catalog -/

theorem loop_eq_none (key : String) (data : List (String × Champion))
    (h : ∀ e ∈ data, e.2.Key ≠ key) : GetChampionByKey.loop key data = none := by
  induction data with
  | nil => rfl
  | cons e rest ih =>
    have he : ¬ key = e.2.Key := fun hk => h e (List.mem_cons_self _ _) hk.symm
    simp only [GetChampionByKey.loop, he, if_false]
    exact ih (fun e2 h2 => h e2 (List.mem_cons_of_mem _ h2))

theorem loop_found (key : String) (data : List (String × Champion))
    (h : ∃ e ∈ data, e.2.Key = key) :
    ∃ e ∈ data, e.2.Key = key ∧ GetChampionByKey.loop key data = some e.2 := by
  induction data with
  | nil => simp at h
  | cons e rest ih =>
    by_cases he : key = e.2.Key
    · exact ⟨e, List.mem_cons_self _ _, he.symm, by simp [GetChampionByKey.loop, he.symm]⟩
    · have h2 : ∃ e2 ∈ rest, e2.2.Key = key := by
        obtain ⟨e2, hmem, hk⟩ := h
        rcases List.mem_cons.mp hmem with rfl | hmem
        · exact absurd hk.symm he
        · exact ⟨e2, hmem, hk⟩
      obtain ⟨e2, hmem, hk, hl⟩ := ih h2
      exact ⟨e2, List.mem_cons_of_mem _ hmem, hk, by simp [GetChampionByKey.loop, he, hl]⟩

theorem NewSanitizedRank_found (c : RiotClient) (summonerName : String) (team : Nat)
    (championId : Int) (h : ∃ e ∈ c.Champions.Data, e.2.Key = Itoa championId) :
    ∃ e ∈ c.Champions.Data, e.2.Key = Itoa championId ∧
      c.NewSanitizedRank summonerName team championId =
        some ⟨summonerName, if team = 100 then "BLUE" else "RED", e.2.Name, "N/A", "N/A"⟩ := by
  obtain ⟨e, hmem, hk, hl⟩ := loop_found _ _ h
  exact ⟨e, hmem, hk, by simp [RiotClient.NewSanitizedRank, Champions.GetChampionByKey, hl]⟩

/-! ## The loop over the rank entries -/

theorem rankStep_other (sr : SanitizedRank) (e : SummonerRank)
    (h1 : e.QueueType ≠ "RANKED_SOLO_5x5") (h2 : e.QueueType ≠ "RANKED_FLEX_SR") :
    rankStep sr e = sr := by
  simp [rankStep, h1, h2]

theorem rankLoop_concat (sr : SanitizedRank) (r : List SummonerRank) (e : SummonerRank) :
    rankLoop sr (r ++ [e]) = rankStep (rankLoop sr r) e := by
  simp [rankLoop, List.foldl_append]

theorem rankStep_fixed (sr : SanitizedRank) (e : SummonerRank) :
    (rankStep sr e).SummonerName = sr.SummonerName ∧ (rankStep sr e).Team = sr.Team ∧
      (rankStep sr e).Champion = sr.Champion := by
  unfold rankStep
  by_cases h1 : e.QueueType = "RANKED_SOLO_5x5" <;>
    by_cases h2 : e.QueueType = "RANKED_FLEX_SR" <;> simp [h1, h2]

theorem rankLoop_fixed (sr : SanitizedRank) (r : List SummonerRank) :
    (rankLoop sr r).SummonerName = sr.SummonerName ∧ (rankLoop sr r).Team = sr.Team ∧
      (rankLoop sr r).Champion = sr.Champion := by
  induction r using List.reverseRecOn with
  | nil => simp [rankLoop]
  | append_singleton r e ih =>
    rw [rankLoop_concat]
    obtain ⟨h1, h2, h3⟩ := rankStep_fixed (rankLoop sr r) e
    exact ⟨h1.trans ih.1, h2.trans ih.2.1, h3.trans ih.2.2⟩

theorem queueText_concat_eq (queue dflt : String) (r : List SummonerRank) (e : SummonerRank)
    (h : e.QueueType = queue) : queueText queue dflt (r ++ [e]) = e.Tier ++ " " ++ e.Rank := by
  simp [queueText, List.filter_append, h]

theorem queueText_concat_ne (queue dflt : String) (r : List SummonerRank) (e : SummonerRank)
    (h : e.QueueType ≠ queue) : queueText queue dflt (r ++ [e]) = queueText queue dflt r := by
  simp [queueText, List.filter_append, h]

theorem rankLoop_Solo (sr : SanitizedRank) (r : List SummonerRank) :
    (rankLoop sr r).Solo = queueText "RANKED_SOLO_5x5" sr.Solo r := by
  induction r using List.reverseRecOn with
  | nil => simp [rankLoop, queueText]
  | append_singleton r e ih =>
    rw [rankLoop_concat]
    by_cases h1 : e.QueueType = "RANKED_SOLO_5x5"
    · rw [queueText_concat_eq _ _ _ _ h1]
      simp [rankStep, h1]
    · rw [queueText_concat_ne _ _ _ _ h1, ← ih]
      unfold rankStep
      by_cases h2 : e.QueueType = "RANKED_FLEX_SR" <;> simp [h1, h2]

theorem rankLoop_Flex (sr : SanitizedRank) (r : List SummonerRank) :
    (rankLoop sr r).Flex = queueText "RANKED_FLEX_SR" sr.Flex r := by
  induction r using List.reverseRecOn with
  | nil => simp [rankLoop, queueText]
  | append_singleton r e ih =>
    rw [rankLoop_concat]
    by_cases h2 : e.QueueType = "RANKED_FLEX_SR"
    · rw [queueText_concat_eq _ _ _ _ h2]
      simp [rankStep, h2]
    · rw [queueText_concat_ne _ _ _ _ h2, ← ih]
      unfold rankStep
      by_cases h1 : e.QueueType = "RANKED_SOLO_5x5" <;> simp [h1, h2]

/-! ## One goroutine -/

theorem slotWrite_failed (c : RiotClient) (up : Upstream) (p : Participant)
    (h : (up.entriesBySummoner p.SummonerID).StatusCode ≠ 200) :
    slotWrite c up p = .skipped := by
  have h2 : ¬ 200 = (up.entriesBySummoner p.SummonerID).StatusCode := fun e => h e.symm
  simp [slotWrite, GetSummonerRankById, h2]

theorem slotWrite_ok (c : RiotClient) (up : Upstream) (p : Participant)
    (h : (up.entriesBySummoner p.SummonerID).StatusCode = 200)
    (hcat : ∃ e ∈ c.Champions.Data, e.2.Key = Itoa p.ChampionID) :
    ∃ e ∈ c.Champions.Data, e.2.Key = Itoa p.ChampionID ∧
      slotWrite c up p = .wrote (rankLoop
        ⟨p.SummonerName, if p.TeamID = 100 then "BLUE" else "RED", e.2.Name, "N/A", "N/A"⟩
        (up.entriesBySummoner p.SummonerID).body) := by
  obtain ⟨e, hmem, hk, hn⟩ := NewSanitizedRank_found c p.SummonerName p.TeamID p.ChampionID hcat
  exact ⟨e, hmem, hk, by simp [slotWrite, GetSummonerRankById, h, hn]⟩

theorem slotWrite_panic (c : RiotClient) (up : Upstream) (p : Participant)
    (h : (up.entriesBySummoner p.SummonerID).StatusCode = 200)
    (hcat : ∀ e ∈ c.Champions.Data, e.2.Key ≠ Itoa p.ChampionID) :
    slotWrite c up p = .panic := by
  simp [slotWrite, GetSummonerRankById, h, RiotClient.NewSanitizedRank,
    Champions.GetChampionByKey, loop_eq_none _ _ hcat]

theorem slotWrite_ne_panic (c : RiotClient) (up : Upstream) (p : Participant)
    (hcat : (up.entriesBySummoner p.SummonerID).StatusCode = 200 →
      ∃ e ∈ c.Champions.Data, e.2.Key = Itoa p.ChampionID) :
    slotWrite c up p ≠ .panic := by
  by_cases h : (up.entriesBySummoner p.SummonerID).StatusCode = 200
  · obtain ⟨e, _, _, hw⟩ := slotWrite_ok c up p h (hcat h)
    rw [hw]; simp
  · rw [slotWrite_failed c up p h]; simp

theorem slotValue_failed (c : RiotClient) (up : Upstream) (p : Participant)
    (h : (up.entriesBySummoner p.SummonerID).StatusCode ≠ 200) :
    slotValue c up p = SanitizedRank.zero := by
  simp [slotValue, slotWrite_failed c up p h]

theorem slotValue_ok (c : RiotClient) (up : Upstream) (p : Participant)
    (h : (up.entriesBySummoner p.SummonerID).StatusCode = 200)
    (hcat : ∃ e ∈ c.Champions.Data, e.2.Key = Itoa p.ChampionID) :
    ∃ e ∈ c.Champions.Data, e.2.Key = Itoa p.ChampionID ∧
      slotValue c up p = rankLoop
        ⟨p.SummonerName, if p.TeamID = 100 then "BLUE" else "RED", e.2.Name, "N/A", "N/A"⟩
        (up.entriesBySummoner p.SummonerID).body := by
  obtain ⟨e, hmem, hk, hw⟩ := slotWrite_ok c up p h hcat
  exact ⟨e, hmem, hk, by simp [slotValue, hw]⟩

theorem slotValue_ok_Team (c : RiotClient) (up : Upstream) (p : Participant)
    (h : (up.entriesBySummoner p.SummonerID).StatusCode = 200)
    (hcat : ∃ e ∈ c.Champions.Data, e.2.Key = Itoa p.ChampionID) :
    (slotValue c up p).Team = if p.TeamID = 100 then "BLUE" else "RED" := by
  obtain ⟨e, _, _, hv⟩ := slotValue_ok c up p h hcat
  rw [hv, (rankLoop_fixed _ _).2.1]

theorem slotValue_Team (c : RiotClient) (up : Upstream) (p : Participant) :
    (slotValue c up p).Team = "" ∨ (slotValue c up p).Team = "BLUE" ∨
      (slotValue c up p).Team = "RED" := by
  by_cases h : (up.entriesBySummoner p.SummonerID).StatusCode = 200
  · by_cases hcat : ∃ e ∈ c.Champions.Data, e.2.Key = Itoa p.ChampionID
    · rw [slotValue_ok_Team c up p h hcat]
      by_cases ht : p.TeamID = 100 <;> simp [ht]
    · left
      have hcat2 : ∀ e ∈ c.Champions.Data, e.2.Key ≠ Itoa p.ChampionID :=
        fun e he hk => hcat ⟨e, he, hk⟩
      simp [slotValue, slotWrite_panic c up p h hcat2, SanitizedRank.zero]
  · left
    simp [slotValue_failed c up p h, SanitizedRank.zero]

/-! ## The whole call -/

theorem call_summoner_failed (c : RiotClient) (up : Upstream) (summonerName : String)
    (order : List Nat) (hs : (up.summonerByName summonerName).StatusCode ≠ 200) :
    c.GetLiveMatchBySummonerName up summonerName order =
      (.returned none (some ⟨(up.summonerByName summonerName).Status⟩),
        [Call.summoner summonerName]) := by
  have h2 : ¬ 200 = (up.summonerByName summonerName).StatusCode := fun e => hs e.symm
  simp [RiotClient.GetLiveMatchBySummonerName, GetSummonerByName, h2]

theorem call_match_failed (c : RiotClient) (up : Upstream) (summonerName : String)
    (order : List Nat) (hs : (up.summonerByName summonerName).StatusCode = 200)
    (hm : (up.activeGameBySummoner (up.summonerByName summonerName).body.ID).StatusCode ≠ 200) :
    c.GetLiveMatchBySummonerName up summonerName order =
      (.returned none
        (some ⟨(up.activeGameBySummoner (up.summonerByName summonerName).body.ID).Status⟩),
        [Call.summoner summonerName,
          Call.liveMatch (up.summonerByName summonerName).body.ID]) := by
  have h2 : ¬ 200 = (up.activeGameBySummoner (up.summonerByName summonerName).body.ID).StatusCode :=
    fun e => hm e.symm
  simp [RiotClient.GetLiveMatchBySummonerName, GetSummonerByName, GetLiveMatchBySummonerId,
    hs, h2]

theorem call_fanout (c : RiotClient) (up : Upstream) (summonerName : String)
    (order : List Nat) (hs : (up.summonerByName summonerName).StatusCode = 200)
    (hm : (up.activeGameBySummoner (up.summonerByName summonerName).body.ID).StatusCode = 200) :
    (c.GetLiveMatchBySummonerName up summonerName order).1 =
      match (order.foldl (goroutine c up
          (up.activeGameBySummoner (up.summonerByName summonerName).body.ID).body.Participants)
          (some (List.replicate
            (up.activeGameBySummoner
              (up.summonerByName summonerName).body.ID).body.Participants.length
            SanitizedRank.zero),
            [Call.summoner summonerName,
              Call.liveMatch (up.summonerByName summonerName).body.ID])).1 with
      | none => .panicked
      | some ps => .returned (some (SliceStable teamLess ps)) none := by
  simp only [RiotClient.GetLiveMatchBySummonerName, GetSummonerByName, GetLiveMatchBySummonerId,
    hs, hm, ne_eq, not_true_eq_false, if_false, List.nil_append, List.singleton_append]
  rcases order.foldl (goroutine c up
      (up.activeGameBySummoner (up.summonerByName summonerName).body.ID).body.Participants)
      (some (List.replicate
        (up.activeGameBySummoner
          (up.summonerByName summonerName).body.ID).body.Participants.length
        SanitizedRank.zero),
        [Call.summoner summonerName,
          Call.liveMatch (up.summonerByName summonerName).body.ID]) with ⟨x, tr⟩
  cases x <;> rfl

theorem call_ok (c : RiotClient) (up : Upstream) (summonerName : String)
    (order : List Nat) (hs : (up.summonerByName summonerName).StatusCode = 200)
    (hm : (up.activeGameBySummoner (up.summonerByName summonerName).body.ID).StatusCode = 200)
    (hperm : order.Perm (List.range (up.activeGameBySummoner
      (up.summonerByName summonerName).body.ID).body.Participants.length))
    (hnp : ∀ p ∈ (up.activeGameBySummoner
      (up.summonerByName summonerName).body.ID).body.Participants, slotWrite c up p ≠ .panic) :
    (c.GetLiveMatchBySummonerName up summonerName order).1 =
      .returned (some (SliceStable teamLess
        ((up.activeGameBySummoner (up.summonerByName summonerName).body.ID).body.Participants.map
          (slotValue c up)))) none := by
  rw [call_fanout c up summonerName order hs hm, foldl_goroutine_ok, foldl_slotStep_perm _ _ _ _ hperm]
  intro i _ p hp
  exact hnp p (List.getElem?_mem hp)

theorem call_panic (c : RiotClient) (up : Upstream) (summonerName : String)
    (order : List Nat) (hs : (up.summonerByName summonerName).StatusCode = 200)
    (hm : (up.activeGameBySummoner (up.summonerByName summonerName).body.ID).StatusCode = 200)
    (hperm : order.Perm (List.range (up.activeGameBySummoner
      (up.summonerByName summonerName).body.ID).body.Participants.length))
    (hp : ∃ p ∈ (up.activeGameBySummoner
      (up.summonerByName summonerName).body.ID).body.Participants, slotWrite c up p = .panic) :
    (c.GetLiveMatchBySummonerName up summonerName order).1 = .panicked := by
  rw [call_fanout c up summonerName order hs hm, foldl_goroutine_panic]
  obtain ⟨p, hmem, hw⟩ := hp
  obtain ⟨i, hi, hget⟩ := List.getElem_of_mem hmem
  refine ⟨i, hperm.mem_iff.mpr (List.mem_range.mpr hi), p, ?_, hw⟩
  rw [List.getElem?_eq_getElem hi, hget]

/-! ## Shape of the sorted result -/

theorem ofTeam_eq_nil (t : String) (l : List SanitizedRank) (h : ∀ x ∈ l, x.Team ≠ t) :
    ofTeam t l = [] := by
  simp only [ofTeam, List.filter_eq_nil_iff]
  intro x hx
  simpa using h x hx

theorem ofTeam_empty_slots (c : RiotClient) (up : Upstream) (P : List Participant)
    (hcat : ∀ p ∈ P, (up.entriesBySummoner p.SummonerID).StatusCode = 200 →
      ∃ e ∈ c.Champions.Data, e.2.Key = Itoa p.ChampionID) :
    ofTeam "" (P.map (slotValue c up)) =
      List.replicate
        (P.countP (fun p => decide ((up.entriesBySummoner p.SummonerID).StatusCode ≠ 200)))
        SanitizedRank.zero := by
  induction P with
  | nil => rfl
  | cons p rest ih =>
    have ih2 := ih (fun q hq => hcat q (List.mem_cons_of_mem _ hq))
    by_cases h : (up.entriesBySummoner p.SummonerID).StatusCode = 200
    · have ht := slotValue_ok_Team c up p h (hcat p (List.mem_cons_self _ _) h)
      have hne : (slotValue c up p).Team ≠ "" := by
        rw [ht]; by_cases h100 : p.TeamID = 100 <;> simp [h100]
      have hcp : List.countP
          (fun p => decide ((up.entriesBySummoner p.SummonerID).StatusCode ≠ 200)) (p :: rest) =
          List.countP
            (fun p => decide ((up.entriesBySummoner p.SummonerID).StatusCode ≠ 200)) rest := by
        rw [List.countP_cons_of_neg]; simp [h]
      rw [hcp, ← ih2]
      simp [ofTeam, List.filter_cons, hne]
    · have hv := slotValue_failed c up p h
      have hcp : List.countP
          (fun p => decide ((up.entriesBySummoner p.SummonerID).StatusCode ≠ 200)) (p :: rest) =
          List.countP
            (fun p => decide ((up.entriesBySummoner p.SummonerID).StatusCode ≠ 200)) rest + 1 := by
        rw [List.countP_cons_of_pos]; simp [h]
      rw [hcp, List.replicate_succ, ← ih2]
      simp [ofTeam, List.filter_cons, hv, SanitizedRank.zero]

theorem SliceStable_slots (c : RiotClient) (up : Upstream) (P : List Participant) :
    SliceStable teamLess (P.map (slotValue c up)) =
      ofTeam "" (P.map (slotValue c up)) ++ ofTeam "BLUE" (P.map (slotValue c up)) ++
        ofTeam "RED" (P.map (slotValue c up)) := by
  apply SliceStable_teams
  intro x hx
  obtain ⟨p, _, rfl⟩ := List.mem_map.mp hx
  exact slotValue_Team c up p

theorem ofTeam_slots_succeeded (c : RiotClient) (up : Upstream) (P : List Participant)
    (t : String) (ht : t ≠ "") :
    ofTeam t (P.map (slotValue c up)) =
      ofTeam t ((P.filter
        (fun p => decide ((up.entriesBySummoner p.SummonerID).StatusCode = 200))).map
          (slotValue c up)) := by
  induction P with
  | nil => rfl
  | cons p rest ih =>
    by_cases h : (up.entriesBySummoner p.SummonerID).StatusCode = 200
    · simp only [List.map_cons, List.filter_cons, h, decide_True, if_true, ofTeam] at ih ⊢
      rw [ih]
    · have hv := slotValue_failed c up p h
      have hne : ¬ (slotValue c up p).Team = t := by
        rw [hv]; exact fun h2 => ht h2.symm
      simp only [List.map_cons, List.filter_cons, h, decide_False, ofTeam, hne] at ih ⊢
      simpa using ih

/-! ## The claims -/

/-- C1: when the summoner and live-match lookups succeed, every rank lookup succeeds and
every champion id is in the catalog, the call returns, with a nil error, the stable
partition by team (BLUE entries, then RED entries, each in participant order) of the
entries computed for the participants, one entry per participant. -/
theorem C1_team_partition (c : RiotClient) (up : Upstream) (summonerName : String)
    (order : List Nat)
    (hs : (up.summonerByName summonerName).StatusCode = 200)
    (hm : (up.activeGameBySummoner (up.summonerByName summonerName).body.ID).StatusCode = 200)
    (hperm : order.Perm (List.range (liveMatchOf up summonerName).Participants.length))
    (hall : ∀ p ∈ (liveMatchOf up summonerName).Participants,
      (up.entriesBySummoner p.SummonerID).StatusCode = 200 ∧
        ∃ e ∈ c.Champions.Data, e.2.Key = Itoa p.ChampionID) :
    ∃ mapped : List SanitizedRank,
      List.Forall₂
        (fun p sr => ∃ sr0, c.NewSanitizedRank p.SummonerName p.TeamID p.ChampionID = some sr0 ∧
          sr = rankLoop sr0 (up.entriesBySummoner p.SummonerID).body)
        (liveMatchOf up summonerName).Participants mapped ∧
      (c.GetLiveMatchBySummonerName up summonerName order).1 =
        .returned (some (ofTeam "BLUE" mapped ++ ofTeam "RED" mapped)) none ∧
      (ofTeam "BLUE" mapped ++ ofTeam "RED" mapped).length =
        (liveMatchOf up summonerName).Participants.length := by
  have hnp : ∀ p ∈ (liveMatchOf up summonerName).Participants, slotWrite c up p ≠ .panic :=
    fun p hp => slotWrite_ne_panic c up p (fun _ => (hall p hp).2)
  have hcall := call_ok c up summonerName order hs hm hperm hnp
  have hnil : ofTeam "" ((liveMatchOf up summonerName).Participants.map (slotValue c up)) = [] := by
    apply ofTeam_eq_nil
    intro x hx
    obtain ⟨p, hp, rfl⟩ := List.mem_map.mp hx
    rw [slotValue_ok_Team c up p (hall p hp).1 (hall p hp).2]
    by_cases h100 : p.TeamID = 100 <;> simp [h100]
  have hsort := SliceStable_slots c up (liveMatchOf up summonerName).Participants
  rw [hnil, List.nil_append] at hsort
  refine ⟨(liveMatchOf up summonerName).Participants.map (slotValue c up), ?_, ?_, ?_⟩
  · rw [List.forall₂_map_right_iff, List.forall₂_same]
    intro p hp
    obtain ⟨e, _, _, hn⟩ := NewSanitizedRank_found c p.SummonerName p.TeamID p.ChampionID
      (hall p hp).2
    refine ⟨_, hn, ?_⟩
    simp [slotValue, slotWrite, GetSummonerRankById, (hall p hp).1, hn]
  · rw [← hsort]; exact hcall
  · rw [← hsort, SliceStable_length, List.length_map]

/-- Witness of C1 on the sample match of four participants, the goroutines finishing in
the order 3, 1, 0, 2. -/
theorem C1_team_partition_witness :
    ∃ mapped : List SanitizedRank,
      List.Forall₂
        (fun p sr => ∃ sr0,
          sampleClient.NewSanitizedRank p.SummonerName p.TeamID p.ChampionID = some sr0 ∧
          sr = rankLoop sr0 ((sampleUpstream []).entriesBySummoner p.SummonerID).body)
        (liveMatchOf (sampleUpstream []) "r1").Participants mapped ∧
      (sampleClient.GetLiveMatchBySummonerName (sampleUpstream []) "r1" [3, 1, 0, 2]).1 =
        .returned (some (ofTeam "BLUE" mapped ++ ofTeam "RED" mapped)) none ∧
      (ofTeam "BLUE" mapped ++ ofTeam "RED" mapped).length =
        (liveMatchOf (sampleUpstream []) "r1").Participants.length :=
  C1_team_partition sampleClient (sampleUpstream []) "r1" [3, 1, 0, 2]
    (by decide) (by decide) (by decide) (by decide)

/-- C2, as stated, fails: in a match of two participants where the rank lookup of the
first fails and that of the second succeeds, the call does not return at all when the
champion of the second is missing from the catalog. -/
theorem C2_counterexample :
    (skewedUpstream.summonerByName "r1").StatusCode = 200 ∧
    (skewedUpstream.activeGameBySummoner (skewedUpstream.summonerByName "r1").body.ID).StatusCode
      = 200 ∧
    (liveMatchOf skewedUpstream "r1").Participants.length = 2 ∧
    (liveMatchOf skewedUpstream "r1").Participants.map
      (fun p => decide ((skewedUpstream.entriesBySummoner p.SummonerID).StatusCode = 200)) =
        [false, true] ∧
    (sampleClient.GetLiveMatchBySummonerName skewedUpstream "r1" [0, 1]).1 = .panicked ∧
    (sampleClient.GetLiveMatchBySummonerName skewedUpstream "r1" [1, 0]).1 = .panicked ∧
    ¬ ∃ ps, (sampleClient.GetLiveMatchBySummonerName skewedUpstream "r1" [0, 1]).1 =
      .returned (some ps) none ∧ ps.length = 2 := by
  refine ⟨by decide, by decide, by decide, by decide, by decide, by decide, ?_⟩
  rintro ⟨ps, h, _⟩
  have hp : (sampleClient.GetLiveMatchBySummonerName skewedUpstream "r1" [0, 1]).1 = .panicked := by
    decide
  rw [hp] at h
  exact Outcome.noConfusion h

/-- C2, amended: when the summoner and live-match lookups succeed and every participant
whose rank lookup succeeds plays a champion of the catalog, the call returns a nil error
and a result of exactly as many entries as the match has participants, whichever rank
lookups fail. -/
theorem C2_partial_failure (c : RiotClient) (up : Upstream) (summonerName : String)
    (order : List Nat)
    (hs : (up.summonerByName summonerName).StatusCode = 200)
    (hm : (up.activeGameBySummoner (up.summonerByName summonerName).body.ID).StatusCode = 200)
    (hperm : order.Perm (List.range (liveMatchOf up summonerName).Participants.length))
    (hcat : ∀ p ∈ (liveMatchOf up summonerName).Participants,
      (up.entriesBySummoner p.SummonerID).StatusCode = 200 →
        ∃ e ∈ c.Champions.Data, e.2.Key = Itoa p.ChampionID) :
    ∃ ps : List SanitizedRank,
      (c.GetLiveMatchBySummonerName up summonerName order).1 = .returned (some ps) none ∧
      ps.length = (liveMatchOf up summonerName).Participants.length := by
  have hnp : ∀ p ∈ (liveMatchOf up summonerName).Participants, slotWrite c up p ≠ .panic :=
    fun p hp => slotWrite_ne_panic c up p (hcat p hp)
  exact ⟨_, call_ok c up summonerName order hs hm hperm hnp, by
    rw [SliceStable_length, List.length_map]; rfl⟩

/-- Witness of the amended C2: the sample match with the rank lookups of two of the four
participants failing. -/
theorem C2_partial_failure_witness :
    ∃ ps : List SanitizedRank,
      (sampleClient.GetLiveMatchBySummonerName (sampleUpstream ["id2", "id3"]) "r1"
        [2, 0, 3, 1]).1 = .returned (some ps) none ∧
      ps.length = (liveMatchOf (sampleUpstream ["id2", "id3"]) "r1").Participants.length :=
  C2_partial_failure sampleClient (sampleUpstream ["id2", "id3"]) "r1" [2, 0, 3, 1]
    (by decide) (by decide) (by decide) (by decide)

/-- C3: a failed summoner lookup ends the call with an error and a nil result after the
summoner request alone; a failed live-match lookup ends it with an error and a nil result
after the summoner and live-match requests alone. No rank request is made in either case,
and no live-match request in the first. -/
theorem C3_short_circuit (c : RiotClient) (up : Upstream) (summonerName : String)
    (order : List Nat) :
    ((up.summonerByName summonerName).StatusCode ≠ 200 →
      (∃ err, (c.GetLiveMatchBySummonerName up summonerName order).1 =
        .returned none (some err)) ∧
      (c.GetLiveMatchBySummonerName up summonerName order).2 = [Call.summoner summonerName] ∧
      (c.GetLiveMatchBySummonerName up summonerName order).2.countP Call.isLiveMatch = 0 ∧
      (c.GetLiveMatchBySummonerName up summonerName order).2.countP Call.isRank = 0) ∧
    ((up.summonerByName summonerName).StatusCode = 200 →
      (up.activeGameBySummoner (up.summonerByName summonerName).body.ID).StatusCode ≠ 200 →
      (∃ err, (c.GetLiveMatchBySummonerName up summonerName order).1 =
        .returned none (some err)) ∧
      (c.GetLiveMatchBySummonerName up summonerName order).2 =
        [Call.summoner summonerName,
          Call.liveMatch (up.summonerByName summonerName).body.ID] ∧
      (c.GetLiveMatchBySummonerName up summonerName order).2.countP Call.isRank = 0) := by
  constructor
  · intro hs
    rw [call_summoner_failed c up summonerName order hs]
    exact ⟨⟨_, rfl⟩, rfl, rfl, rfl⟩
  · intro hs hm
    rw [call_match_failed c up summonerName order hs hm]
    exact ⟨⟨_, rfl⟩, rfl, rfl⟩

/-- Witness of C3: an unknown summoner (404 on the first lookup), and a summoner who is
not in a game (404 on the second lookup). -/
theorem C3_short_circuit_witness :
    ((∃ err, (sampleClient.GetLiveMatchBySummonerName
        (summonerStatusUpstream 404 "404 Not Found") "nobody" [0, 1, 2, 3]).1 =
      .returned none (some err)) ∧
    (sampleClient.GetLiveMatchBySummonerName
      (summonerStatusUpstream 404 "404 Not Found") "nobody" [0, 1, 2, 3]).2 =
        [Call.summoner "nobody"] ∧
    (sampleClient.GetLiveMatchBySummonerName
      (summonerStatusUpstream 404 "404 Not Found") "nobody" [0, 1, 2, 3]).2.countP
        Call.isLiveMatch = 0 ∧
    (sampleClient.GetLiveMatchBySummonerName
      (summonerStatusUpstream 404 "404 Not Found") "nobody" [0, 1, 2, 3]).2.countP
        Call.isRank = 0) ∧
    ((∃ err, (sampleClient.GetLiveMatchBySummonerName
        (liveMatchStatusUpstream 404 "404 Not Found") "r1" [0, 1, 2, 3]).1 =
      .returned none (some err)) ∧
    (sampleClient.GetLiveMatchBySummonerName
      (liveMatchStatusUpstream 404 "404 Not Found") "r1" [0, 1, 2, 3]).2 =
        [Call.summoner "r1",
          Call.liveMatch ((liveMatchStatusUpstream 404 "404 Not Found").summonerByName
            "r1").body.ID] ∧
    (sampleClient.GetLiveMatchBySummonerName
      (liveMatchStatusUpstream 404 "404 Not Found") "r1" [0, 1, 2, 3]).2.countP
        Call.isRank = 0) :=
  ⟨(C3_short_circuit sampleClient (summonerStatusUpstream 404 "404 Not Found") "nobody"
      [0, 1, 2, 3]).1 (by decide),
    (C3_short_circuit sampleClient (liveMatchStatusUpstream 404 "404 Not Found") "r1"
      [0, 1, 2, 3]).2 (by decide) (by decide)⟩

/-- C4, as stated, fails: two summoner lookups failing with different status texts give
different errors, and a summoner lookup and a live-match lookup failing with the same
status text give the same error. -/
theorem C4_counterexample :
    (sampleClient.GetLiveMatchBySummonerName
        (summonerStatusUpstream 404 "404 Not Found") "x" [0, 1, 2, 3]).1 ≠
      (sampleClient.GetLiveMatchBySummonerName
        (summonerStatusUpstream 403 "403 Forbidden") "x" [0, 1, 2, 3]).1 ∧
    (sampleClient.GetLiveMatchBySummonerName
        (summonerStatusUpstream 404 "404 Not Found") "x" [0, 1, 2, 3]).1 =
      (sampleClient.GetLiveMatchBySummonerName
        (liveMatchStatusUpstream 404 "404 Not Found") "x" [0, 1, 2, 3]).1 := by
  decide

/-- C4, amended: the error of a failed call is the status text of the upstream response
that failed, that of the summoner lookup when it is not 200, else that of the live-match
lookup when it is not 200. -/
theorem C4_error_is_status_text (c : RiotClient) (up : Upstream) (summonerName : String)
    (order : List Nat) :
    ((up.summonerByName summonerName).StatusCode ≠ 200 →
      (c.GetLiveMatchBySummonerName up summonerName order).1 =
        .returned none (some ⟨(up.summonerByName summonerName).Status⟩)) ∧
    ((up.summonerByName summonerName).StatusCode = 200 →
      (up.activeGameBySummoner (up.summonerByName summonerName).body.ID).StatusCode ≠ 200 →
      (c.GetLiveMatchBySummonerName up summonerName order).1 =
        .returned none
          (some ⟨(up.activeGameBySummoner (up.summonerByName summonerName).body.ID).Status⟩)) := by
  constructor
  · intro hs
    rw [call_summoner_failed c up summonerName order hs]
  · intro hs hm
    rw [call_match_failed c up summonerName order hs hm]

/-- Witness of the amended C4: an unknown summoner (403 on the first lookup), and a
summoner who is not in a game (404 on the second lookup). -/
theorem C4_error_is_status_text_witness :
    (sampleClient.GetLiveMatchBySummonerName
      (summonerStatusUpstream 403 "403 Forbidden") "nobody" [0, 1, 2, 3]).1 =
        .returned none
          (some ⟨((summonerStatusUpstream 403 "403 Forbidden").summonerByName "nobody").Status⟩) ∧
    (sampleClient.GetLiveMatchBySummonerName
      (liveMatchStatusUpstream 404 "404 Not Found") "r1" [0, 1, 2, 3]).1 =
        .returned none (some ⟨((liveMatchStatusUpstream 404 "404 Not Found").activeGameBySummoner
          ((liveMatchStatusUpstream 404 "404 Not Found").summonerByName "r1").body.ID).Status⟩) :=
  ⟨(C4_error_is_status_text sampleClient (summonerStatusUpstream 403 "403 Forbidden") "nobody"
      [0, 1, 2, 3]).1 (by decide),
    (C4_error_is_status_text sampleClient (liveMatchStatusUpstream 404 "404 Not Found") "r1"
      [0, 1, 2, 3]).2 (by decide) (by decide)⟩

/-- C5: the goroutine of a participant whose rank lookup succeeds (and whose champion is
in the catalog) writes into its slot an entry whose Solo is "N/A" when the rank list has
no RANKED_SOLO_5x5 entry, and whose Flex is "N/A" when it has no RANKED_FLEX_SR entry;
the empty list is such a list. -/
theorem C5_no_entry_gives_NA (c : RiotClient) (up : Upstream) (P : List Participant)
    (ps : List SanitizedRank) (tr : List Call) (i : Nat) (p : Participant)
    (hp : P[i]? = some p)
    (hr : (up.entriesBySummoner p.SummonerID).StatusCode = 200)
    (hcat : ∃ e ∈ c.Champions.Data, e.2.Key = Itoa p.ChampionID) :
    ∃ sr, (goroutine c up P (some ps, tr) i).1 = some (ps.set i sr) ∧
      ((∀ e ∈ (up.entriesBySummoner p.SummonerID).body, e.QueueType ≠ "RANKED_SOLO_5x5") →
        sr.Solo = "N/A") ∧
      ((∀ e ∈ (up.entriesBySummoner p.SummonerID).body, e.QueueType ≠ "RANKED_FLEX_SR") →
        sr.Flex = "N/A") := by
  obtain ⟨e, _, _, hw⟩ := slotWrite_ok c up p hr hcat
  refine ⟨rankLoop
    ⟨p.SummonerName, if p.TeamID = 100 then "BLUE" else "RED", e.2.Name, "N/A", "N/A"⟩
    (up.entriesBySummoner p.SummonerID).body, ?_, ?_, ?_⟩
  · rw [goroutine_fst, hp]; simp only [hw]
  · intro hno
    rw [rankLoop_Solo]
    have hf : (up.entriesBySummoner p.SummonerID).body.filter
        (fun e => decide (e.QueueType = "RANKED_SOLO_5x5")) = [] := by
      rw [List.filter_eq_nil_iff]
      intro x hx
      simpa using hno x hx
    simp [queueText, hf]
  · intro hno
    rw [rankLoop_Flex]
    have hf : (up.entriesBySummoner p.SummonerID).body.filter
        (fun e => decide (e.QueueType = "RANKED_FLEX_SR")) = [] := by
      rw [List.filter_eq_nil_iff]
      intro x hx
      simpa using hno x hx
    simp [queueText, hf]

/-- Witness of C5: participant 2 of the sample match. With a rank list holding a flex
entry and an entry of another queue, but no solo entry, the entry written has Solo "N/A"
next to Flex "GOLD II"; with a solo entry and an entry of another queue, but no flex
entry, it has Flex "N/A" next to Solo "SILVER I". -/
theorem C5_no_entry_gives_NA_witness :
    (∃ sr, (goroutine sampleClient
        (rankListUpstream [sampleRank "RANKED_FLEX_SR" "GOLD" "II",
          sampleRank "RANKED_TFT" "IRON" "IV"])
        sampleMatch.Participants (some (List.replicate 4 SanitizedRank.zero), []) 2).1 =
          some ((List.replicate 4 SanitizedRank.zero).set 2 sr) ∧
      sr.Solo = "N/A" ∧ sr = ⟨"r2", "RED", "Annie", "N/A", "GOLD II"⟩) ∧
    (∃ sr, (goroutine sampleClient
        (rankListUpstream [sampleRank "RANKED_TFT" "IRON" "IV",
          sampleRank "RANKED_SOLO_5x5" "SILVER" "I"])
        sampleMatch.Participants (some (List.replicate 4 SanitizedRank.zero), []) 2).1 =
          some ((List.replicate 4 SanitizedRank.zero).set 2 sr) ∧
      sr.Flex = "N/A" ∧ sr = ⟨"r2", "RED", "Annie", "SILVER I", "N/A"⟩) := by
  constructor
  · obtain ⟨sr, hw, hsolo, _⟩ := C5_no_entry_gives_NA sampleClient
      (rankListUpstream [sampleRank "RANKED_FLEX_SR" "GOLD" "II",
        sampleRank "RANKED_TFT" "IRON" "IV"])
      sampleMatch.Participants (List.replicate 4 SanitizedRank.zero) [] 2
      (sampleParticipant 200 1 "r2" "id3") (by decide) (by decide) (by decide)
    refine ⟨sr, hw, hsolo (by decide), ?_⟩
    have hd : (goroutine sampleClient
        (rankListUpstream [sampleRank "RANKED_FLEX_SR" "GOLD" "II",
          sampleRank "RANKED_TFT" "IRON" "IV"])
        sampleMatch.Participants (some (List.replicate 4 SanitizedRank.zero), []) 2).1 =
          some ((List.replicate 4 SanitizedRank.zero).set 2
            ⟨"r2", "RED", "Annie", "N/A", "GOLD II"⟩) := by decide
    have hset := Option.some.inj (hw.symm.trans hd)
    have hget := congrArg (fun l => l[2]?) hset
    simpa [List.getElem?_set] using hget
  · obtain ⟨sr, hw, _, hflex⟩ := C5_no_entry_gives_NA sampleClient
      (rankListUpstream [sampleRank "RANKED_TFT" "IRON" "IV",
        sampleRank "RANKED_SOLO_5x5" "SILVER" "I"])
      sampleMatch.Participants (List.replicate 4 SanitizedRank.zero) [] 2
      (sampleParticipant 200 1 "r2" "id3") (by decide) (by decide) (by decide)
    refine ⟨sr, hw, hflex (by decide), ?_⟩
    have hd : (goroutine sampleClient
        (rankListUpstream [sampleRank "RANKED_TFT" "IRON" "IV",
          sampleRank "RANKED_SOLO_5x5" "SILVER" "I"])
        sampleMatch.Participants (some (List.replicate 4 SanitizedRank.zero), []) 2).1 =
          some ((List.replicate 4 SanitizedRank.zero).set 2
            ⟨"r2", "RED", "Annie", "SILVER I", "N/A"⟩) := by decide
    have hset := Option.some.inj (hw.symm.trans hd)
    have hget := congrArg (fun l => l[2]?) hset
    simpa [List.getElem?_set] using hget

/-- C6: the goroutine of a participant whose rank lookup succeeds (and whose champion is
in the catalog) writes an entry whose Solo is the tier, a space and the division of the
last RANKED_SOLO_5x5 entry of the rank list, and whose Flex is the same of the last
RANKED_FLEX_SR entry; an entry of any other queue type leaves the loop state as it is. -/
theorem C6_queue_text (c : RiotClient) (up : Upstream) (P : List Participant)
    (ps : List SanitizedRank) (tr : List Call) (i : Nat) (p : Participant)
    (hp : P[i]? = some p)
    (hr : (up.entriesBySummoner p.SummonerID).StatusCode = 200)
    (hcat : ∃ e ∈ c.Champions.Data, e.2.Key = Itoa p.ChampionID) :
    ∃ sr, (goroutine c up P (some ps, tr) i).1 = some (ps.set i sr) ∧
      (∀ e, ((up.entriesBySummoner p.SummonerID).body.filter
          (fun e => decide (e.QueueType = "RANKED_SOLO_5x5"))).getLast? = some e →
        sr.Solo = e.Tier ++ " " ++ e.Rank) ∧
      (∀ e, ((up.entriesBySummoner p.SummonerID).body.filter
          (fun e => decide (e.QueueType = "RANKED_FLEX_SR"))).getLast? = some e →
        sr.Flex = e.Tier ++ " " ++ e.Rank) ∧
      (∀ (st : SanitizedRank) (e : SummonerRank), e.QueueType ≠ "RANKED_SOLO_5x5" →
        e.QueueType ≠ "RANKED_FLEX_SR" → rankStep st e = st) := by
  obtain ⟨e, _, _, hw⟩ := slotWrite_ok c up p hr hcat
  refine ⟨rankLoop
    ⟨p.SummonerName, if p.TeamID = 100 then "BLUE" else "RED", e.2.Name, "N/A", "N/A"⟩
    (up.entriesBySummoner p.SummonerID).body, ?_, ?_, ?_, ?_⟩
  · rw [goroutine_fst, hp]; simp only [hw]
  · intro e2 he2
    rw [rankLoop_Solo]
    simp [queueText, he2]
  · intro e2 he2
    rw [rankLoop_Flex]
    simp [queueText, he2]
  · intro st e2 h1 h2
    exact rankStep_other st e2 h1 h2

/-- Witness of C6: participant 0 of the sample match, whose rank list holds a flex entry
(GOLD II) and a solo entry (SILVER I). -/
theorem C6_queue_text_witness :
    ∃ sr, (goroutine sampleClient (sampleUpstream []) sampleMatch.Participants
        (some (List.replicate 4 SanitizedRank.zero), []) 0).1 =
          some ((List.replicate 4 SanitizedRank.zero).set 0 sr) ∧
      (∀ e, (((sampleUpstream []).entriesBySummoner
          (sampleParticipant 200 266 "r1" "id1").SummonerID).body.filter
          (fun e => decide (e.QueueType = "RANKED_SOLO_5x5"))).getLast? = some e →
        sr.Solo = e.Tier ++ " " ++ e.Rank) ∧
      (∀ e, (((sampleUpstream []).entriesBySummoner
          (sampleParticipant 200 266 "r1" "id1").SummonerID).body.filter
          (fun e => decide (e.QueueType = "RANKED_FLEX_SR"))).getLast? = some e →
        sr.Flex = e.Tier ++ " " ++ e.Rank) ∧
      (∀ (st : SanitizedRank) (e : SummonerRank), e.QueueType ≠ "RANKED_SOLO_5x5" →
        e.QueueType ≠ "RANKED_FLEX_SR" → rankStep st e = st) :=
  C6_queue_text sampleClient (sampleUpstream []) sampleMatch.Participants
    (List.replicate 4 SanitizedRank.zero) [] 0 (sampleParticipant 200 266 "r1" "id1")
    (by decide) (by decide) (by decide)

/-- C7: with unique champion keys, a champion of the catalog whose Key is the decimal
string of the id is what `GetChampionByKey` returns, and `NewSanitizedRank` returns an
entry whose Champion is its Name; when no champion of the catalog has that Key,
`GetChampionByKey` returns nil and `NewSanitizedRank` panics, returning no entry. -/
theorem C7_champion_lookup (c : RiotClient) (summonerName : String) (team : Nat)
    (championId : Int) :
    (∀ champ : Champion, champ ∈ c.Champions.Data.map Prod.snd →
      champ.Key = Itoa championId →
      (c.Champions.Data.map (fun e => e.2.Key)).Nodup →
      c.Champions.GetChampionByKey (Itoa championId) = some champ ∧
      ∃ sr, c.NewSanitizedRank summonerName team championId = some sr ∧
        sr.Champion = champ.Name) ∧
    ((∀ champ ∈ c.Champions.Data.map Prod.snd, champ.Key ≠ Itoa championId) →
      c.Champions.GetChampionByKey (Itoa championId) = none ∧
      c.NewSanitizedRank summonerName team championId = none) := by
  constructor
  · intro champ hmem hkey hnodup
    obtain ⟨e, he, rfl⟩ := List.mem_map.mp hmem
    obtain ⟨e2, he2, hk2, hl⟩ := loop_found (Itoa championId) c.Champions.Data ⟨e, he, hkey⟩
    have hee : e2 = e :=
      List.inj_on_of_nodup_map hnodup he2 he (hk2.trans hkey.symm)
    subst hee
    have hg : c.Champions.GetChampionByKey (Itoa championId) = some e2.2 := hl
    exact ⟨hg, ⟨summonerName, if team = 100 then "BLUE" else "RED", e2.2.Name, "N/A", "N/A"⟩,
      by simp only [RiotClient.NewSanitizedRank, hg], rfl⟩
  · intro hnone
    have hl : GetChampionByKey.loop (Itoa championId) c.Champions.Data = none :=
      loop_eq_none _ _ (fun e he => hnone e.2 (List.mem_map_of_mem _ he))
    have hg : c.Champions.GetChampionByKey (Itoa championId) = none := hl
    exact ⟨hg, by simp only [RiotClient.NewSanitizedRank, hg]⟩

/-- Witness of C7: champion 103 is Ahri in the sample catalog, champion 999 is absent. -/
theorem C7_champion_lookup_witness :
    (sampleClient.Champions.GetChampionByKey (Itoa 103) = some (sampleChampion "103" "Ahri") ∧
      ∃ sr, sampleClient.NewSanitizedRank "b1" 100 103 = some sr ∧
        sr.Champion = (sampleChampion "103" "Ahri").Name) ∧
    (sampleClient.Champions.GetChampionByKey (Itoa 999) = none ∧
      sampleClient.NewSanitizedRank "b1" 100 999 = none) :=
  ⟨(C7_champion_lookup sampleClient "b1" 100 103).1 (sampleChampion "103" "Ahri")
      (by decide) (by decide) (by decide),
    (C7_champion_lookup sampleClient "b1" 100 999).2 (by decide)⟩

/-- C9: for a champion id of the catalog, `NewSanitizedRank` returns an entry with the
given summoner name, Team "BLUE" when the team id is 100 and "RED" for every other team
id, and Solo and Flex both "N/A". -/
theorem C9_new_sanitized_rank (c : RiotClient) (summonerName : String) (team : Nat)
    (championId : Int) (hcat : ∃ e ∈ c.Champions.Data, e.2.Key = Itoa championId) :
    ∃ sr, c.NewSanitizedRank summonerName team championId = some sr ∧
      sr.SummonerName = summonerName ∧
      (team = 100 → sr.Team = "BLUE") ∧ (team ≠ 100 → sr.Team = "RED") ∧
      sr.Solo = "N/A" ∧ sr.Flex = "N/A" := by
  obtain ⟨e, _, _, hn⟩ := NewSanitizedRank_found c summonerName team championId hcat
  refine ⟨_, hn, rfl, ?_, ?_, rfl, rfl⟩
  · intro h; simp [h]
  · intro h; simp [h]

/-- Witness of C9: team id 7, neither 100 nor 200, is labelled "RED". -/
theorem C9_new_sanitized_rank_witness :
    ∃ sr, sampleClient.NewSanitizedRank "someone" 7 266 = some sr ∧
      sr.SummonerName = "someone" ∧
      (7 = 100 → sr.Team = "BLUE") ∧ (7 ≠ 100 → sr.Team = "RED") ∧
      sr.Solo = "N/A" ∧ sr.Flex = "N/A" :=
  C9_new_sanitized_rank sampleClient "someone" 7 266 (by decide)

/-- C8: for a fixed client, upstream and summoner name, any two schedules of the
goroutines (permutations of the participant indices) leave the same slice after the
fan-out and give the same outcome of the call: the same sorted result, the same error,
or a panic in both. -/
theorem C8_schedule_independent (c : RiotClient) (up : Upstream) (summonerName : String)
    (order₁ order₂ : List Nat) (tr₁ tr₂ : List Call)
    (h₁ : order₁.Perm (List.range (liveMatchOf up summonerName).Participants.length))
    (h₂ : order₂.Perm (List.range (liveMatchOf up summonerName).Participants.length)) :
    (order₁.foldl (goroutine c up (liveMatchOf up summonerName).Participants)
        (some (List.replicate (liveMatchOf up summonerName).Participants.length
          SanitizedRank.zero), tr₁)).1 =
      (order₂.foldl (goroutine c up (liveMatchOf up summonerName).Participants)
        (some (List.replicate (liveMatchOf up summonerName).Participants.length
          SanitizedRank.zero), tr₂)).1 ∧
    (c.GetLiveMatchBySummonerName up summonerName order₁).1 =
      (c.GetLiveMatchBySummonerName up summonerName order₂).1 := by
  constructor
  · by_cases hpanic : ∃ p ∈ (liveMatchOf up summonerName).Participants,
        slotWrite c up p = .panic
    · obtain ⟨p, hmem, hw⟩ := hpanic
      obtain ⟨i, hi, hget⟩ := List.getElem_of_mem hmem
      have hex : ∀ order : List Nat,
          order.Perm (List.range (liveMatchOf up summonerName).Participants.length) →
          ∃ j ∈ order, ∃ q, (liveMatchOf up summonerName).Participants[j]? = some q ∧
            slotWrite c up q = .panic := by
        intro order hperm
        refine ⟨i, hperm.mem_iff.mpr (List.mem_range.mpr hi), p, ?_, hw⟩
        rw [List.getElem?_eq_getElem hi, hget]
      rw [foldl_goroutine_panic _ _ _ _ _ _ (hex order₁ h₁),
        foldl_goroutine_panic _ _ _ _ _ _ (hex order₂ h₂)]
    · have hnp : ∀ order : List Nat, ∀ i ∈ order, ∀ p,
          (liveMatchOf up summonerName).Participants[i]? = some p →
          slotWrite c up p ≠ .panic :=
        fun _ _ _ p hp hw => hpanic ⟨p, List.getElem?_mem hp, hw⟩
      rw [foldl_goroutine_ok _ _ _ _ _ _ (hnp order₁), foldl_goroutine_ok _ _ _ _ _ _ (hnp order₂),
        foldl_slotStep_perm _ _ _ _ h₁, foldl_slotStep_perm _ _ _ _ h₂]
  · by_cases hs : (up.summonerByName summonerName).StatusCode = 200
    · by_cases hm :
          (up.activeGameBySummoner (up.summonerByName summonerName).body.ID).StatusCode = 200
      · by_cases hpanic : ∃ p ∈ (liveMatchOf up summonerName).Participants,
            slotWrite c up p = .panic
        · rw [call_panic c up summonerName order₁ hs hm h₁ hpanic,
            call_panic c up summonerName order₂ hs hm h₂ hpanic]
        · have hnp : ∀ p ∈ (liveMatchOf up summonerName).Participants,
              slotWrite c up p ≠ .panic := fun p hp hw => hpanic ⟨p, hp, hw⟩
          rw [call_ok c up summonerName order₁ hs hm h₁ hnp,
            call_ok c up summonerName order₂ hs hm h₂ hnp]
      · rw [call_match_failed c up summonerName order₁ hs hm,
          call_match_failed c up summonerName order₂ hs hm]
    · rw [call_summoner_failed c up summonerName order₁ hs,
        call_summoner_failed c up summonerName order₂ hs]

/-- Witness of C8: the sample match, two of its rank lookups failing, under the schedules
3, 1, 0, 2 and 0, 1, 2, 3. -/
theorem C8_schedule_independent_witness :
    (([3, 1, 0, 2] : List Nat).foldl
        (goroutine sampleClient (sampleUpstream ["id1", "id4"])
          (liveMatchOf (sampleUpstream ["id1", "id4"]) "r1").Participants)
        (some (List.replicate (liveMatchOf (sampleUpstream ["id1", "id4"]) "r1").Participants.length
          SanitizedRank.zero), [])).1 =
      (([0, 1, 2, 3] : List Nat).foldl
        (goroutine sampleClient (sampleUpstream ["id1", "id4"])
          (liveMatchOf (sampleUpstream ["id1", "id4"]) "r1").Participants)
        (some (List.replicate (liveMatchOf (sampleUpstream ["id1", "id4"]) "r1").Participants.length
          SanitizedRank.zero), [])).1 ∧
    (sampleClient.GetLiveMatchBySummonerName (sampleUpstream ["id1", "id4"]) "r1"
        [3, 1, 0, 2]).1 =
      (sampleClient.GetLiveMatchBySummonerName (sampleUpstream ["id1", "id4"]) "r1"
        [0, 1, 2, 3]).1 :=
  C8_schedule_independent sampleClient (sampleUpstream ["id1", "id4"]) "r1"
    [3, 1, 0, 2] [0, 1, 2, 3] [] [] (by decide) (by decide)

/-- C10: when the summoner and live-match lookups succeed, a result the call returns is
always one all-empty entry per participant whose rank lookup failed, followed by the BLUE
entries and then the RED entries of the participants whose rank lookup succeeded, in
participant order, with a nil error; the call does return it when the participants whose
rank lookup succeeds play champions of the catalog. The entry of a failed participant has
five empty fields, that of a successful one is labelled BLUE or RED. -/
theorem C10_failed_entries_first (c : RiotClient) (up : Upstream) (summonerName : String)
    (order : List Nat)
    (hs : (up.summonerByName summonerName).StatusCode = 200)
    (hm : (up.activeGameBySummoner (up.summonerByName summonerName).body.ID).StatusCode = 200)
    (hperm : order.Perm (List.range (liveMatchOf up summonerName).Participants.length)) :
    (∀ ps err, (c.GetLiveMatchBySummonerName up summonerName order).1 = .returned ps err →
      err = none ∧ ps = some (
        List.replicate
          ((liveMatchOf up summonerName).Participants.countP
            (fun p => decide ((up.entriesBySummoner p.SummonerID).StatusCode ≠ 200)))
          ⟨"", "", "", "", ""⟩ ++
        ofTeam "BLUE" (((liveMatchOf up summonerName).Participants.filter
          (fun p => decide ((up.entriesBySummoner p.SummonerID).StatusCode = 200))).map
            (slotValue c up)) ++
        ofTeam "RED" (((liveMatchOf up summonerName).Participants.filter
          (fun p => decide ((up.entriesBySummoner p.SummonerID).StatusCode = 200))).map
            (slotValue c up)))) ∧
    ((∀ p ∈ (liveMatchOf up summonerName).Participants,
        (up.entriesBySummoner p.SummonerID).StatusCode = 200 →
          ∃ e ∈ c.Champions.Data, e.2.Key = Itoa p.ChampionID) →
      ∃ ps, (c.GetLiveMatchBySummonerName up summonerName order).1 =
        .returned (some ps) none) ∧
    (∀ p ∈ (liveMatchOf up summonerName).Participants,
      (up.entriesBySummoner p.SummonerID).StatusCode ≠ 200 →
        slotWrite c up p = .skipped ∧ slotValue c up p = ⟨"", "", "", "", ""⟩) ∧
    (∀ p ∈ (liveMatchOf up summonerName).Participants,
      (up.entriesBySummoner p.SummonerID).StatusCode = 200 →
      ∀ sr0, c.NewSanitizedRank p.SummonerName p.TeamID p.ChampionID = some sr0 →
        slotValue c up p = rankLoop sr0 (up.entriesBySummoner p.SummonerID).body ∧
        ((slotValue c up p).Team = "BLUE" ∨ (slotValue c up p).Team = "RED")) := by
  have hok : (∀ p ∈ (liveMatchOf up summonerName).Participants,
      (up.entriesBySummoner p.SummonerID).StatusCode = 200 →
        ∃ e ∈ c.Champions.Data, e.2.Key = Itoa p.ChampionID) →
      (c.GetLiveMatchBySummonerName up summonerName order).1 = .returned (some (
        List.replicate
          ((liveMatchOf up summonerName).Participants.countP
            (fun p => decide ((up.entriesBySummoner p.SummonerID).StatusCode ≠ 200)))
          ⟨"", "", "", "", ""⟩ ++
        ofTeam "BLUE" (((liveMatchOf up summonerName).Participants.filter
          (fun p => decide ((up.entriesBySummoner p.SummonerID).StatusCode = 200))).map
            (slotValue c up)) ++
        ofTeam "RED" (((liveMatchOf up summonerName).Participants.filter
          (fun p => decide ((up.entriesBySummoner p.SummonerID).StatusCode = 200))).map
            (slotValue c up)))) none := by
    intro hcat
    have hnp : ∀ p ∈ (liveMatchOf up summonerName).Participants, slotWrite c up p ≠ .panic :=
      fun p hp => slotWrite_ne_panic c up p (hcat p hp)
    rw [call_ok c up summonerName order hs hm hperm hnp]
    have hsort := SliceStable_slots c up (liveMatchOf up summonerName).Participants
    rw [ofTeam_empty_slots c up _ hcat,
      ofTeam_slots_succeeded c up _ "BLUE" (by decide),
      ofTeam_slots_succeeded c up _ "RED" (by decide)] at hsort
    exact congrArg (fun l => Outcome.returned (some l) none) hsort
  refine ⟨?_, ?_, ?_, ?_⟩
  · intro ps err hret
    by_cases hcat : ∀ p ∈ (liveMatchOf up summonerName).Participants,
        (up.entriesBySummoner p.SummonerID).StatusCode = 200 →
          ∃ e ∈ c.Champions.Data, e.2.Key = Itoa p.ChampionID
    · rw [hok hcat] at hret
      injection hret with h1 h2
      exact ⟨h2.symm, h1.symm⟩
    · exfalso
      have hex : ∃ p ∈ (liveMatchOf up summonerName).Participants,
          slotWrite c up p = .panic := by
        by_contra hno
        apply hcat
        intro p hp h200
        by_contra hne
        exact hno ⟨p, hp, slotWrite_panic c up p h200 (fun e he hk => hne ⟨e, he, hk⟩)⟩
      rw [call_panic c up summonerName order hs hm hperm hex] at hret
      exact Outcome.noConfusion hret
  · intro hcat
    exact ⟨_, hok hcat⟩
  · intro p _ hfail
    exact ⟨slotWrite_failed c up p hfail, slotValue_failed c up p hfail⟩
  · intro p _ h200 sr0 hn
    have hv : slotValue c up p = rankLoop sr0 (up.entriesBySummoner p.SummonerID).body := by
      simp [slotValue, slotWrite, GetSummonerRankById, h200, hn]
    refine ⟨hv, ?_⟩
    rw [hv, (rankLoop_fixed _ _).2.1]
    simp only [RiotClient.NewSanitizedRank] at hn
    cases hg : c.Champions.GetChampionByKey (Itoa p.ChampionID) with
    | none => rw [hg] at hn; exact Option.noConfusion hn
    | some champ =>
      rw [hg] at hn
      simp only [Option.some.injEq] at hn
      rw [← hn]
      by_cases h100 : p.TeamID = 100 <;> simp [h100]

/-- Witness of C10: the sample match with the rank lookups of "id1" and "id4" failing;
the two empty entries come first. -/
theorem C10_failed_entries_first_witness :
    ∃ ps, (sampleClient.GetLiveMatchBySummonerName (sampleUpstream ["id1", "id4"]) "r1"
        [3, 1, 0, 2]).1 = .returned (some ps) none ∧
      ps = [⟨"", "", "", "", ""⟩, ⟨"", "", "", "", ""⟩,
        ⟨"b1", "BLUE", "Ahri", "SILVER I", "GOLD II"⟩,
        ⟨"r2", "RED", "Annie", "SILVER I", "GOLD II"⟩] := by
  obtain ⟨ps, hps⟩ := (C10_failed_entries_first sampleClient (sampleUpstream ["id1", "id4"])
    "r1" [3, 1, 0, 2] (by decide) (by decide) (by decide)).2.1 (by decide)
  have hshape := ((C10_failed_entries_first sampleClient (sampleUpstream ["id1", "id4"])
    "r1" [3, 1, 0, 2] (by decide) (by decide) (by decide)).1 (some ps) none hps).2
  refine ⟨ps, hps, ?_⟩
  have hval : ps = _ := Option.some.inj hshape
  rw [hval]
  decide

end Lolbot
